import Mathlib

/-!
Verification of the MCP stdio test-driver engine (`test-interactive.py`).

The embedding models `MCPTester` as explicit state passing.  The child
server's behaviour is an oracle `ev : Nat → LineEvent` giving, for the
k-th `send_command` invocation of the session, what the write/readline
exchange yields: a decodable line, an undecodable line, an empty line
(stream closed), or an exception raised while sending/decoding.  All
operator-visible prints and all outgoing JSON-RPC requests are recorded
as a trace of `Ev` events.
-/

/-- JSON values, as produced by `json.loads`.  Numbers are modelled as
integers (the harness only ever builds integer ids and limits). -/
inductive Json where
  | null : Json
  | bool : Bool → Json
  | num : Int → Json
  | str : String → Json
  | arr : List Json → Json
  | obj : List (String × Json) → Json

/-- Python `k in d` on a dict: does the association list carry the key. -/
def hasKey (l : List (String × Json)) (k : String) : Bool :=
  l.any (fun p => p.1 == k)

/-- Python truthiness of a decoded JSON value (`if response:`). -/
def truthy : Json → Bool
  | Json.null => false
  | Json.bool b => b
  | Json.num n => n != 0
  | Json.str s => s != ""
  | Json.arr l => !l.isEmpty
  | Json.obj l => !l.isEmpty

/-- The three branches of `MCPTester.print_response`. -/
inductive RespClass where
  | error : RespClass
  | success : RespClass
  | raw : RespClass
  deriving DecidableEq

/-- `MCPTester.print_response` (test-interactive.py lines 92-101) on a
decoded dict: the `error` key is checked first, then `result`, else the
response is printed raw. -/
def print_response (response : List (String × Json)) : RespClass :=
  if hasKey response "error" then RespClass.error
  else if hasKey response "result" then RespClass.success
  else RespClass.raw

/-- What one write/readline exchange with the child yields. -/
inductive LineEvent where
  | line : Option Json → LineEvent
  | closed : LineEvent
  | exn : LineEvent

/-- Observable events: outgoing requests, operator-visible prints, and
the process-lifecycle actions of `main`/`cleanup`. -/
inductive Ev where
  | request : Nat → String → Json → Ev
  | printServerNotRunning : Ev
  | printSendError : Ev
  | printNoResponse : Ev
  | printInitHeader : Ev
  | printHeader : String → Ev
  | printError : Ev
  | printSuccess : Ev
  | printRaw : Ev
  | printOther : Ev
  | printInitFailedStopping : Ev
  | printInitFailedExiting : Ev
  | printInvalidChoice : Ev
  | printInterrupted : Ev
  | spawn : Ev
  | terminate : Ev
  | waitGrace : Ev
  | kill : Ev
  | waitFinal : Ev

/-- `MCPTester` state: the request-id counter (`self.request_id`,
initialised to 1), the index of the next oracle exchange, and whether
`self.process` is set. -/
structure St where
  reqId : Nat
  idx : Nat
  proc : Bool

/-- `MCPTester.send_command` (lines 58-90).  Builds the request carrying
the current `request_id`, writes it, reads one line.  A decoded response
increments the counter and is returned; an empty line prints
"No response from server" and returns None; an exception while
sending/decoding prints "Error sending command" and returns None — in
the failure cases the counter is NOT incremented. -/
def send_command (ev : Nat → LineEvent) (method : String) (params : Json)
    (st : St) : Option Json × St × List Ev :=
  if st.proc then
    match ev st.idx with
    | LineEvent.line (some j) =>
        (some j, ⟨st.reqId + 1, st.idx + 1, st.proc⟩,
          [Ev.request st.reqId method params])
    | LineEvent.line none =>
        (none, ⟨st.reqId, st.idx + 1, st.proc⟩,
          [Ev.request st.reqId method params, Ev.printSendError])
    | LineEvent.closed =>
        (none, ⟨st.reqId, st.idx + 1, st.proc⟩,
          [Ev.request st.reqId method params, Ev.printNoResponse])
    | LineEvent.exn =>
        (none, ⟨st.reqId, st.idx + 1, st.proc⟩,
          [Ev.request st.reqId method params, Ev.printSendError])
  else
    (none, st, [Ev.printServerNotRunning])

/-- The print event produced by `self.print_response(response)`.
Non-dict responses fall outside the typed `Dict` contract of
`print_response` and are recorded as an opaque print. -/
def printRespEv : Json → List Ev
  | Json.obj l =>
      match print_response l with
      | RespClass.error => [Ev.printError]
      | RespClass.success => [Ev.printSuccess]
      | RespClass.raw => [Ev.printRaw]
  | _ => [Ev.printOther]

/-- The `params` dict built by `MCPTester.initialize` (lines 106-113). -/
def initParams : Json :=
  Json.obj [("protocolVersion", Json.str "2024-11-05"),
            ("capabilities", Json.obj []),
            ("clientInfo", Json.obj [("name", Json.str "manual-tester"),
                                     ("version", Json.str "1.0.0")])]

/-- `MCPTester.initialize` (lines 103-117): prints a header, sends the
`initialize` request, and returns True exactly when the decoded response
is truthy (`if response:`) — in which case it is also pretty-printed. -/
def initSession (ev : Nat → LineEvent) (st : St) : Bool × St × List Ev :=
  let (r, st1, t) := send_command ev "initialize" initParams st
  match r with
  | some j =>
      if truthy j then (true, st1, Ev.printInitHeader :: (t ++ printRespEv j))
      else (false, st1, Ev.printInitHeader :: t)
  | none => (false, st1, Ev.printInitHeader :: t)

/-- Common shape of the five `test_*` methods (lines 119-179): print a
header, send a `tools/call` request, and if the response is truthy
pretty-print it. -/
def toolCallStep (ev : Nat → LineEvent) (header : Ev) (params : Json)
    (st : St) : St × List Ev :=
  let (r, st1, t) := send_command ev "tools/call" params st
  match r with
  | some j =>
      if truthy j then (st1, header :: (t ++ printRespEv j))
      else (st1, header :: t)
  | none => (st1, header :: t)

/-- `MCPTester.test_list_schemas` (lines 119-127). -/
def test_list_schemas (ev : Nat → LineEvent) (connection : String)
    (st : St) : St × List Ev :=
  toolCallStep ev (Ev.printHeader "list_schemas")
    (Json.obj [("name", Json.str "list_schemas"),
               ("arguments", Json.obj [("database", Json.str connection)])]) st

/-- `MCPTester.test_list_tables` (lines 129-140). -/
def test_list_tables (ev : Nat → LineEvent) (connection schema : String)
    (st : St) : St × List Ev :=
  toolCallStep ev (Ev.printHeader "list_tables")
    (Json.obj [("name", Json.str "list_tables"),
               ("arguments", Json.obj [("database", Json.str connection),
                                       ("schema", Json.str schema)])]) st

/-- `MCPTester.test_describe_table` (lines 142-153). -/
def test_describe_table (ev : Nat → LineEvent)
    (connection schema table : String) (st : St) : St × List Ev :=
  toolCallStep ev (Ev.printHeader "describe_table")
    (Json.obj [("name", Json.str "describe_table"),
               ("arguments", Json.obj [("database", Json.str connection),
                                       ("schema", Json.str schema),
                                       ("table", Json.str table)])]) st

/-- `MCPTester.test_run_sql` (lines 155-166). -/
def test_run_sql (ev : Nat → LineEvent) (connection query : String)
    (limit : Int) (st : St) : St × List Ev :=
  toolCallStep ev (Ev.printHeader "run_sql")
    (Json.obj [("name", Json.str "run_sql"),
               ("arguments", Json.obj [("database", Json.str connection),
                                       ("query", Json.str query),
                                       ("limit", Json.num limit)])]) st

/-- `MCPTester.test_explain_sql` (lines 168-179). -/
def test_explain_sql (ev : Nat → LineEvent) (connection query : String)
    (st : St) : St × List Ev :=
  toolCallStep ev (Ev.printHeader "explain_sql")
    (Json.obj [("name", Json.str "explain_sql"),
               ("arguments", Json.obj [("database", Json.str connection),
                                       ("query", Json.str query)])]) st

/-- Sequential execution of statements, threading the tester state and
concatenating traces. -/
def runSeq : List (St → St × List Ev) → St → St × List Ev
  | [], st => (st, [])
  | f :: fs, st =>
      let (st1, t) := f st
      let (st2, t2) := runSeq fs st1
      (st2, t ++ t2)

/-- The eleven scripted tool calls of `run_comprehensive_test`
(lines 190-215), in source order: five against `primary`, six against
`analytics`. -/
def comprehensiveCalls (ev : Nat → LineEvent) : List (St → St × List Ev) :=
  [test_list_schemas ev "primary",
   test_list_tables ev "primary" "public",
   test_run_sql ev "primary" "SELECT current_database(), version()" 1,
   test_run_sql ev "primary" "SELECT schemaname, tablename FROM pg_tables WHERE schemaname = \x27public\x27" 5,
   test_explain_sql ev "primary" "SELECT * FROM pg_tables LIMIT 5",
   test_list_schemas ev "analytics",
   test_list_tables ev "analytics" "default",
   test_describe_table ev "analytics" "default" "events",
   test_run_sql ev "analytics" "SELECT count(*) as total_events FROM events" 1,
   test_run_sql ev "analytics" "SELECT event_type, count(*) as count FROM events GROUP BY event_type" 10,
   test_explain_sql ev "analytics" "SELECT event_type, count(*) FROM events GROUP BY event_type"]

/-- `MCPTester.run_comprehensive_test` (lines 181-217): initialize, and
on failure print "Failed to initialize. Stopping tests." and return;
otherwise run the eleven scripted calls top to bottom. -/
def run_comprehensive_test (ev : Nat → LineEvent) (st : St) :
    St × List Ev :=
  let (ok, st1, t1) := initSession ev st
  if ok then
    let (st2, t2) := runSeq (comprehensiveCalls ev) st1
    (st2, t1 ++ t2)
  else
    (st1, t1 ++ [Ev.printInitFailedStopping])

/-- One iteration of operator input in `interactive_mode` (lines
239-269).  String-carrying constructors hold the already-`strip()`-ed
answers to the follow-up prompts of that menu branch. -/
inductive Choice where
  | c1 : Choice
  | c2 : Choice
  | c3 : String → String → Choice
  | c4 : String → String → String → Choice
  | c5 : String → String → String → Choice
  | c6 : String → String → Choice
  | c7 : Choice
  | c8 : Choice
  | other : String → Choice

/-- How the interactive menu loop ended.  `exhausted` marks the end of
the modelled input window (the trace is a prefix of the session). -/
inductive Outcome where
  | normal : Outcome
  | exhausted : Outcome
  | raised : Outcome
  deriving DecidableEq

/-- Value of a decimal digit character. -/
def digitVal (c : Char) : Nat := c.toNat - 48

/-- Digits after the first one, with Python's underscore rule: a single
underscore may stand between two digits, never leading, trailing or
doubled. -/
def pyDigitsAux : Nat → List Char → Option Nat
  | acc, [] => some acc
  | acc, c :: cs =>
      if c.isDigit then pyDigitsAux (10 * acc + digitVal c) cs
      else if c = '_' then
        match cs with
        | [] => none
        | d :: ds =>
            if d.isDigit then pyDigitsAux (10 * acc + digitVal d) ds
            else none
      else none

/-- A nonempty digit run (with underscores) read as a natural number. -/
def pyNatDigits : List Char → Option Nat
  | [] => none
  | c :: cs => if c.isDigit then pyDigitsAux (digitVal c) cs else none

/-- Optional sign followed by digits. -/
def pyIntCore : List Char → Option Int
  | [] => none
  | '+' :: cs => (pyNatDigits cs).map Int.ofNat
  | '-' :: cs => (pyNatDigits cs).map (fun n => -(n : Int))
  | cs => (pyNatDigits cs).map Int.ofNat

/-- Python `int(s)` on an already-stripped decimal string: `some` the
value, or `none` when `int` raises `ValueError`. -/
def pyInt (s : String) : Option Int := pyIntCore s.toList

/-- The menu loop of `MCPTester.interactive_mode` (lines 228-269) over a
finite window of operator inputs.  Choice 5 converts the limit string
with `int(limit) if limit else 10`; a conversion failure is an uncaught
`ValueError` that ends the loop (`Outcome.raised`).  Choice 8 breaks the
loop; anything unrecognized prints "Invalid choice" and re-prompts. -/
def interactive_loop (ev : Nat → LineEvent) :
    List Choice → St → St × List Ev × Outcome
  | [], st => (st, [], Outcome.exhausted)
  | c :: rest, st =>
      match c with
      | Choice.c1 =>
          let (st1, t) := test_list_schemas ev "primary" st
          let (st2, t2, o) := interactive_loop ev rest st1
          (st2, t ++ t2, o)
      | Choice.c2 =>
          let (st1, t) := test_list_schemas ev "analytics" st
          let (st2, t2, o) := interactive_loop ev rest st1
          (st2, t ++ t2, o)
      | Choice.c3 connection schema =>
          let (st1, t) := test_list_tables ev connection schema st
          let (st2, t2, o) := interactive_loop ev rest st1
          (st2, t ++ t2, o)
      | Choice.c4 connection schema table =>
          let (st1, t) := test_describe_table ev connection schema table st
          let (st2, t2, o) := interactive_loop ev rest st1
          (st2, t ++ t2, o)
      | Choice.c5 connection query limitStr =>
          if limitStr = "" then
            let (st1, t) := test_run_sql ev connection query 10 st
            let (st2, t2, o) := interactive_loop ev rest st1
            (st2, t ++ t2, o)
          else
            match pyInt limitStr with
            | some n =>
                let (st1, t) := test_run_sql ev connection query n st
                let (st2, t2, o) := interactive_loop ev rest st1
                (st2, t ++ t2, o)
            | none => (st, [], Outcome.raised)
      | Choice.c6 connection query =>
          let (st1, t) := test_explain_sql ev connection query st
          let (st2, t2, o) := interactive_loop ev rest st1
          (st2, t ++ t2, o)
      | Choice.c7 =>
          let (st1, t) := run_comprehensive_test ev st
          let (st2, t2, o) := interactive_loop ev rest st1
          (st2, t ++ t2, o)
      | Choice.c8 => (st, [], Outcome.normal)
      | Choice.other _ =>
          let (st2, t2, o) := interactive_loop ev rest st
          (st2, Ev.printInvalidChoice :: t2, o)

/-- `MCPTester.interactive_mode` (lines 219-269): initialize, and on
failure print "Failed to initialize. Exiting." and return; otherwise
run the menu loop. -/
def interactive_mode (ev : Nat → LineEvent) (choices : List Choice)
    (st : St) : St × List Ev × Outcome :=
  let (ok, st1, t1) := initSession ev st
  if ok then
    let (st2, t2, o) := interactive_loop ev choices st1
    (st2, t1 ++ t2, o)
  else
    (st1, t1 ++ [Ev.printInitFailedExiting], Outcome.normal)

/-- The two driving modes selected by `main` from `sys.argv`. -/
inductive Mode where
  | comprehensive : Mode
  | interactive : Mode

/-- Result of the whole program run. -/
inductive ProgEnd where
  | exitZero : ProgEnd
  | exitOne : ProgEnd
  | exn : ProgEnd
  deriving DecidableEq

/-- Environment facts `main` depends on: the binary-existence check, the
docker check, whether `Popen` succeeded (so `self.process` is set),
whether the child was still alive after the startup grace period,
whether a `KeyboardInterrupt` aborted the body (`preEvents` being the
events observed before it), and whether `process.wait(timeout=3)` in
`cleanup` times out. -/
structure World where
  binaryExists : Bool
  dockerOk : Bool
  popenOk : Bool
  pollAlive : Bool
  interrupted : Bool
  preEvents : List Ev
  cleanupHangs : Bool

/-- `MCPTester.cleanup` (lines 271-282): if a process exists, terminate,
wait up to 3 seconds, and on timeout kill and wait again. -/
def cleanup (popenOk hangs : Bool) : List Ev :=
  if popenOk then
    Ev.terminate :: Ev.waitGrace ::
      (if hangs then [Ev.kill, Ev.waitFinal] else [])
  else []

/-- The body `main` runs inside its `try`: one of the two modes on a
fresh `MCPTester` (request_id 1, oracle position 0, process running).
Returns the trace and whether an exception escaped the body. -/
def bodyRun (mode : Mode) (ev : Nat → LineEvent) (choices : List Choice) :
    List Ev × Bool :=
  match mode with
  | Mode.comprehensive => ((run_comprehensive_test ev ⟨1, 0, true⟩).2, false)
  | Mode.interactive =>
      let (_, t, o) := interactive_mode ev choices ⟨1, 0, true⟩
      (t, o = Outcome.raised)

/-- `main` (lines 285-328): the binary and docker checks exit with code
1 before any child exists; a failed `start_server` raises `SystemExit`
inside the `try`; a `KeyboardInterrupt` is caught and reported; in every
one of those cases the `finally` clause runs `cleanup` before the
program ends. -/
def main_run (w : World) (mode : Mode) (ev : Nat → LineEvent)
    (choices : List Choice) : List Ev × ProgEnd :=
  if w.binaryExists then
    if w.dockerOk then
      let spawnEvs := if w.popenOk then [Ev.spawn] else []
      if w.popenOk && w.pollAlive then
        if w.interrupted then
          (spawnEvs ++ w.preEvents ++ [Ev.printInterrupted] ++
            cleanup w.popenOk w.cleanupHangs, ProgEnd.exitZero)
        else
          let (t, raised) := bodyRun mode ev choices
          (spawnEvs ++ t ++ cleanup w.popenOk w.cleanupHangs,
           if raised then ProgEnd.exn else ProgEnd.exitZero)
      else
        (spawnEvs ++ cleanup w.popenOk w.cleanupHangs, ProgEnd.exitOne)
    else ([], ProgEnd.exitOne)
  else ([], ProgEnd.exitOne)

/-- Is this event an outgoing `tools/call` request. -/
def isToolReq : Ev → Bool
  | Ev.request _ m _ => m == "tools/call"
  | _ => false

/-- Is this event an outgoing `initialize` request. -/
def isInitReq : Ev → Bool
  | Ev.request _ m _ => m == "initialize"
  | _ => false

/-- Is this event the header line of one of the five `test_*` methods. -/
def isToolHeader : Ev → Bool
  | Ev.printHeader _ => true
  | _ => false

/-- Is this event the success branch of `print_response`. -/
def isPrintSuccess : Ev → Bool
  | Ev.printSuccess => true
  | _ => false

/-- Is this event the graceful `process.terminate()` call. -/
def isTerminate : Ev → Bool
  | Ev.terminate => true
  | _ => false

/-- The ids attached to the outgoing requests of a trace, in order. -/
def reqIds (t : List Ev) : List Nat :=
  t.filterMap (fun e => match e with
    | Ev.request i _ _ => some i
    | _ => none)

/-- The methods of the outgoing requests of a trace, in order. -/
def reqMethods (t : List Ev) : List String :=
  t.filterMap (fun e => match e with
    | Ev.request _ m _ => some m
    | _ => none)

/-- Does this exchange decode to a response (`json.loads` succeeds)? -/
def decodes : LineEvent → Bool
  | LineEvent.line (some _) => true
  | _ => false

/-- A run of `n` consecutive `send_command` calls with fixed method and
params (the RpcClient-level view of a session). -/
def runCalls (ev : Nat → LineEvent) (method : String) (params : Json) :
    Nat → St → St × List Ev
  | 0, st => (st, [])
  | n + 1, st =>
      let (_, st1, t) := send_command ev method params st
      let (st2, t2) := runCalls ev method params n st1
      (st2, t ++ t2)

/-- The oracle exchanges consumed by `n` calls starting at position `i`. -/
def evSlice (ev : Nat → LineEvent) (i : Nat) : Nat → List LineEvent
  | 0 => []
  | n + 1 => ev i :: evSlice ev (i + 1) n

/-- The id sequence the source actually produces: starting from counter
value `r`, each call carries the current counter, which advances only
when the exchange decoded a response. -/
def idsFrom (r : Nat) : List LineEvent → List Nat
  | [] => []
  | e :: es => r :: idsFrom (if decodes e then r + 1 else r) es

/-- A well-formed JSON-RPC success response, truthy and with a `result`
key. -/
def okFields : List (String × Json) :=
  [("jsonrpc", Json.str "2.0"), ("id", Json.num 1),
   ("result", Json.obj [("ok", Json.bool true)])]

/-- The success response as a JSON value. -/
def okResp : Json := Json.obj okFields

/-- A stub server answering every request with a success response. -/
def allOkOracle : Nat → LineEvent := fun _ => LineEvent.line (some okResp)

/-- A well-formed JSON-RPC error response. -/
def errFields : List (String × Json) :=
  [("jsonrpc", Json.str "2.0"), ("id", Json.num 1),
   ("error", Json.obj [("code", Json.num (-32600)),
                       ("message", Json.str "invalid request")])]

/-- The error response as a JSON value. -/
def errResp : Json := Json.obj errFields

/-- A decoded message carrying neither `result` nor `error`, with an id
that matches no outgoing request. -/
def mismatchFields : List (String × Json) := [("id", Json.num 99)]

/-- The mismatching message as a JSON value. -/
def mismatchResp : Json := Json.obj mismatchFields

/-- A fresh `MCPTester` with the server process running. -/
def st0 : St := ⟨1, 0, true⟩

/-- A stub server that closes its output stream for the second exchange
only (the first tool call after a successful initialize). -/
def closedAt1 : Nat → LineEvent :=
  fun i => if i == 1 then LineEvent.closed else LineEvent.line (some okResp)

/-! ## Basic lemmas about `send_command` -/

theorem send_line_some (ev : Nat → LineEvent) (m : String) (p : Json)
    (st : St) (h : st.proc = true) (j : Json)
    (hev : ev st.idx = LineEvent.line (some j)) :
    send_command ev m p st =
      (some j, ⟨st.reqId + 1, st.idx + 1, st.proc⟩,
        [Ev.request st.reqId m p]) := by
  simp [send_command, h, hev]

theorem send_line_none (ev : Nat → LineEvent) (m : String) (p : Json)
    (st : St) (h : st.proc = true)
    (hev : ev st.idx = LineEvent.line none) :
    send_command ev m p st =
      (none, ⟨st.reqId, st.idx + 1, st.proc⟩,
        [Ev.request st.reqId m p, Ev.printSendError]) := by
  simp [send_command, h, hev]

theorem send_closed (ev : Nat → LineEvent) (m : String) (p : Json)
    (st : St) (h : st.proc = true)
    (hev : ev st.idx = LineEvent.closed) :
    send_command ev m p st =
      (none, ⟨st.reqId, st.idx + 1, st.proc⟩,
        [Ev.request st.reqId m p, Ev.printNoResponse]) := by
  simp [send_command, h, hev]

theorem send_exn (ev : Nat → LineEvent) (m : String) (p : Json)
    (st : St) (h : st.proc = true)
    (hev : ev st.idx = LineEvent.exn) :
    send_command ev m p st =
      (none, ⟨st.reqId, st.idx + 1, st.proc⟩,
        [Ev.request st.reqId m p, Ev.printSendError]) := by
  simp [send_command, h, hev]

/-- The event produced by `print_response` is a pure print: never a
request, never a `test_*` header. -/
theorem printRespEv_counts (j : Json) :
    (printRespEv j).countP isToolReq = 0 ∧
    (printRespEv j).countP isInitReq = 0 ∧
    (printRespEv j).countP isToolHeader = 0 := by
  cases j <;> simp [printRespEv, isToolReq, isInitReq, isToolHeader]
  case obj l =>
    cases print_response l <;>
      simp [isToolReq, isInitReq, isToolHeader]

/-! ## Lemmas about a single scripted tool call -/

/-- Whatever the exchange yields, a `test_*` step issues exactly one
`tools/call` request, no `initialize` request, exactly one header line,
and keeps the process handle. -/
theorem toolCallStep_basic (ev : Nat → LineEvent) (nm : String) (p : Json)
    (st : St) (h : st.proc = true) :
    (toolCallStep ev (Ev.printHeader nm) p st).1.proc = true ∧
    (toolCallStep ev (Ev.printHeader nm) p st).2.countP isToolReq = 1 ∧
    (toolCallStep ev (Ev.printHeader nm) p st).2.countP isInitReq = 0 ∧
    (toolCallStep ev (Ev.printHeader nm) p st).2.countP isToolHeader = 1 := by
  unfold toolCallStep
  cases hev : ev st.idx with
  | line oj =>
    cases oj with
    | none =>
      rw [send_line_none ev _ p st h hev]
      simp [h, isToolReq, isInitReq, isToolHeader]
    | some j =>
      rw [send_line_some ev _ p st h j hev]
      rcases printRespEv_counts j with ⟨h1, h2, h3⟩
      by_cases ht : truthy j <;>
        simp [ht, h, h1, h2, h3, isToolReq, isInitReq, isToolHeader]
  | closed =>
    rw [send_closed ev _ p st h hev]
    simp [h, isToolReq, isInitReq, isToolHeader]
  | exn =>
    rw [send_exn ev _ p st h hev]
    simp [h, isToolReq, isInitReq, isToolHeader]

/-- A dict that carries any key at all is a nonempty, hence truthy,
Python value. -/
theorem truthy_of_hasKey (l : List (String × Json)) (k : String)
    (h : hasKey l k = true) : truthy (Json.obj l) = true := by
  cases l with
  | nil => simp [hasKey] at h
  | cons a t => simp [truthy]

/-- A scripted call whose exchange decodes to a well-formed JSON-RPC
error response completes normally: the header and the request are
issued, the error is reported via `print_response`, and execution
returns to the caller. -/
theorem toolCallStep_error_report (ev : Nat → LineEvent) (hd : Ev)
    (p : Json) (st : St) (l : List (String × Json)) (h : st.proc = true)
    (hev : ev st.idx = LineEvent.line (some (Json.obj l)))
    (he : hasKey l "error" = true) :
    toolCallStep ev hd p st =
      (⟨st.reqId + 1, st.idx + 1, st.proc⟩,
       [hd, Ev.request st.reqId "tools/call" p, Ev.printError]) := by
  unfold toolCallStep
  rw [send_line_some ev _ p st h _ hev]
  simp [truthy_of_hasKey l "error" he, printRespEv, print_response, he]

/-- A scripted call whose exchange decodes to a result-carrying success
response issues the header and the request and reports success. -/
theorem toolCallStep_ok_report (ev : Nat → LineEvent) (hd : Ev)
    (p : Json) (st : St) (l : List (String × Json)) (h : st.proc = true)
    (hev : ev st.idx = LineEvent.line (some (Json.obj l)))
    (hne : hasKey l "error" = false) (hr : hasKey l "result" = true) :
    toolCallStep ev hd p st =
      (⟨st.reqId + 1, st.idx + 1, st.proc⟩,
       [hd, Ev.request st.reqId "tools/call" p, Ev.printSuccess]) := by
  unfold toolCallStep
  rw [send_line_some ev _ p st h _ hev]
  simp [truthy_of_hasKey l "result" hr, printRespEv, print_response, hne, hr]

/-! ## Lemmas about sequential execution -/

/-- Counting events across `runSeq`: if every statement contributes `c`
events matching `P` and keeps the process handle, the sequence
contributes `c` per statement. -/
theorem runSeq_countP (P : Ev → Bool) (c : Nat) :
    ∀ (fs : List (St → St × List Ev)) (st : St),
      (∀ f ∈ fs, ∀ s : St, s.proc = true →
        (f s).2.countP P = c ∧ (f s).1.proc = true) →
      st.proc = true →
      (runSeq fs st).2.countP P = c * fs.length ∧
        (runSeq fs st).1.proc = true := by
  intro fs
  induction fs with
  | nil => intro st _ h; simp [runSeq, h]
  | cons f fs ih =>
    intro st hall h
    have hf := hall f (by simp) st h
    have hrest : ∀ g ∈ fs, ∀ s : St, s.proc = true →
        (g s).2.countP P = c ∧ (g s).1.proc = true := by
      intro g hg s hs
      exact hall g (by simp [hg]) s hs
    rcases hfst : f st with ⟨st1, t⟩
    rw [hfst] at hf
    have hih := ih st1 hrest hf.2
    rcases hrun : runSeq fs st1 with ⟨st2, t2⟩
    rw [hrun] at hih
    simp only [runSeq, hfst, hrun]
    refine ⟨?_, hih.2⟩
    rw [List.countP_append, hf.1, hih.1, List.length_cons, Nat.mul_succ]
    omega

/-! ## Lemmas about the handshake -/

/-- `initialize` on a decoded response: reports success exactly when
the response is truthy, advances the id counter, and pretty-prints the
response only in the truthy case. -/
theorem initSession_some (ev : Nat → LineEvent) (st : St)
    (h : st.proc = true) (j : Json)
    (hev : ev st.idx = LineEvent.line (some j)) :
    initSession ev st =
      (truthy j, ⟨st.reqId + 1, st.idx + 1, st.proc⟩,
       Ev.printInitHeader :: Ev.request st.reqId "initialize" initParams ::
         (if truthy j then printRespEv j else [])) := by
  unfold initSession
  rw [send_line_some ev _ initParams st h j hev]
  by_cases ht : truthy j <;> simp [ht]

/-- `initialize` on any failing exchange: reports failure, leaves the
id counter alone, and appends one failure print. -/
theorem initSession_fail (ev : Nat → LineEvent) (st : St)
    (h : st.proc = true)
    (hev : ev st.idx = LineEvent.line none ∨ ev st.idx = LineEvent.closed ∨
      ev st.idx = LineEvent.exn) :
    ∃ e, initSession ev st =
        (false, ⟨st.reqId, st.idx + 1, st.proc⟩,
         [Ev.printInitHeader, Ev.request st.reqId "initialize" initParams, e]) ∧
      (e = Ev.printSendError ∨ e = Ev.printNoResponse) := by
  unfold initSession
  rcases hev with hev | hev | hev
  · rw [send_line_none ev _ initParams st h hev]
    exact ⟨Ev.printSendError, rfl, Or.inl rfl⟩
  · rw [send_closed ev _ initParams st h hev]
    exact ⟨Ev.printNoResponse, rfl, Or.inr rfl⟩
  · rw [send_exn ev _ initParams st h hev]
    exact ⟨Ev.printSendError, rfl, Or.inl rfl⟩

/-- The handshake reports success iff the exchange decoded to a truthy
value — the presence of a JSON-RPC `error` object is never examined. -/
theorem initSession_ok_iff (ev : Nat → LineEvent) (st : St)
    (h : st.proc = true) :
    (initSession ev st).1 = true ↔
      ∃ j, ev st.idx = LineEvent.line (some j) ∧ truthy j = true := by
  cases hev : ev st.idx with
  | line oj =>
    cases oj with
    | some j =>
      rw [initSession_some ev st h j hev]
      simp [hev]
    | none =>
      rcases initSession_fail ev st h (Or.inl hev) with ⟨e, heq, -⟩
      rw [heq]
      simp [hev]
  | closed =>
    rcases initSession_fail ev st h (Or.inr (Or.inl hev)) with ⟨e, heq, -⟩
    rw [heq]
    simp [hev]
  | exn =>
    rcases initSession_fail ev st h (Or.inr (Or.inr hev)) with ⟨e, heq, -⟩
    rw [heq]
    simp [hev]

/-! ## Lemmas about the comprehensive script -/

/-- Every statement of the comprehensive script is one scripted tool
call: one `tools/call` request, no `initialize`, one header. -/
theorem comprehensiveCalls_mem (ev : Nat → LineEvent)
    (f : St → St × List Ev) (hf : f ∈ comprehensiveCalls ev) (s : St)
    (hs : s.proc = true) :
    (f s).1.proc = true ∧ (f s).2.countP isToolReq = 1 ∧
    (f s).2.countP isInitReq = 0 ∧ (f s).2.countP isToolHeader = 1 := by
  simp only [comprehensiveCalls, List.mem_cons, List.not_mem_nil,
    or_false] at hf
  rcases hf with rfl | rfl | rfl | rfl | rfl | rfl | rfl | rfl | rfl | rfl | rfl <;>
    exact toolCallStep_basic ev _ _ s hs

/-- The `initialize` request is not a `tools/call` request. -/
theorem initReq_not_tool (i : Nat) (p : Json) :
    isToolReq (Ev.request i "initialize" p) = false := by
  simp [isToolReq]

/-- The `initialize` request counts as an `initialize` request. -/
theorem initReq_is_init (i : Nat) (p : Json) :
    isInitReq (Ev.request i "initialize" p) = true := by
  simp [isInitReq]

/-- Request methods of a trace headed by the handshake request. -/
theorem reqMethods_init_head (i : Nat) (p : Json) (tail t2 : List Ev) :
    reqMethods ((Ev.printInitHeader :: Ev.request i "initialize" p :: tail)
      ++ t2) = "initialize" :: reqMethods (tail ++ t2) := by
  simp [reqMethods]

/-- Comprehensive mode when the handshake fails: the failure is printed
and not a single tool call is issued, but the `initialize` request
itself was sent once. -/
theorem comprehensive_counts_fail (ev : Nat → LineEvent) (st : St)
    (h : st.proc = true)
    (hev : ev st.idx = LineEvent.line none ∨ ev st.idx = LineEvent.closed ∨
      ev st.idx = LineEvent.exn) :
    (run_comprehensive_test ev st).2.countP isToolReq = 0 ∧
    (run_comprehensive_test ev st).2.countP isInitReq = 1 ∧
    ∃ rest, reqMethods (run_comprehensive_test ev st).2 =
      "initialize" :: rest := by
  rcases initSession_fail ev st h hev with ⟨e, heq, he⟩
  unfold run_comprehensive_test
  rw [heq]
  rcases he with rfl | rfl <;>
    exact ⟨by simp [isToolReq], by simp [isInitReq],
      ⟨reqMethods [Ev.printInitFailedStopping], by simp [reqMethods]⟩⟩

/-- The comprehensive script has eleven statements. -/
theorem comprehensiveCalls_length (ev : Nat → LineEvent) :
    (comprehensiveCalls ev).length = 11 := rfl

/-- Comprehensive mode when the handshake succeeds: whatever each later
exchange yields, exactly eleven `tools/call` requests and exactly one
`initialize` request go out, the first request being the handshake. -/
theorem comprehensive_counts_ok (ev : Nat → LineEvent) (st : St)
    (h : st.proc = true) (j : Json)
    (hev : ev st.idx = LineEvent.line (some j)) (ht : truthy j = true) :
    (run_comprehensive_test ev st).2.countP isToolReq = 11 ∧
    (run_comprehensive_test ev st).2.countP isInitReq = 1 ∧
    ∃ rest, reqMethods (run_comprehensive_test ev st).2 =
      "initialize" :: rest := by
  unfold run_comprehensive_test
  rw [initSession_some ev st h j hev]
  simp only [ht, if_true]
  have hproc1 : (⟨st.reqId + 1, st.idx + 1, st.proc⟩ : St).proc = true := h
  have htools := runSeq_countP isToolReq 1 (comprehensiveCalls ev)
    ⟨st.reqId + 1, st.idx + 1, st.proc⟩
    (fun f hf s hs => ⟨(comprehensiveCalls_mem ev f hf s hs).2.1,
      (comprehensiveCalls_mem ev f hf s hs).1⟩) hproc1
  have hinits := runSeq_countP isInitReq 0 (comprehensiveCalls ev)
    ⟨st.reqId + 1, st.idx + 1, st.proc⟩
    (fun f hf s hs => ⟨(comprehensiveCalls_mem ev f hf s hs).2.2.1,
      (comprehensiveCalls_mem ev f hf s hs).1⟩) hproc1
  rcases hrun : runSeq (comprehensiveCalls ev)
      ⟨st.reqId + 1, st.idx + 1, st.proc⟩ with ⟨stF, t2⟩
  rw [hrun] at htools hinits
  rw [comprehensiveCalls_length] at htools hinits
  rcases printRespEv_counts j with ⟨hp1, hp2, hp3⟩
  refine ⟨?_, ?_, ?_⟩
  · simp [List.countP_cons, List.countP_append, isToolReq, hp1, htools.1]
  · simp [List.countP_cons, List.countP_append, isInitReq, hp2, hinits.1]
  · refine ⟨reqMethods (printRespEv j ++ t2), ?_⟩
    simp [reqMethods]

/-- In interactive mode, the first request of the session is always the
handshake. -/
theorem interactive_head (ev : Nat → LineEvent) (choices : List Choice)
    (st : St) (h : st.proc = true) :
    ∃ rest, reqMethods (interactive_mode ev choices st).2.1 =
      "initialize" :: rest := by
  unfold interactive_mode
  cases hev : ev st.idx with
  | line oj =>
    cases oj with
    | some j =>
      rw [initSession_some ev st h j hev]
      cases ht : truthy j with
      | true =>
        simp only [ht]
        rcases hrun : interactive_loop ev choices
            ⟨st.reqId + 1, st.idx + 1, st.proc⟩ with ⟨stF, t2, o⟩
        refine ⟨reqMethods (printRespEv j ++ t2), ?_⟩
        simp [reqMethods]
      | false =>
        simp only [ht]
        refine ⟨reqMethods ([] ++ [Ev.printInitFailedExiting]), ?_⟩
        simp [reqMethods]
    | none =>
      rcases initSession_fail ev st h (Or.inl hev) with ⟨e, heq, -⟩
      rw [heq]
      refine ⟨reqMethods ([e] ++ [Ev.printInitFailedExiting]), ?_⟩
      simp [reqMethods]
  | closed =>
    rcases initSession_fail ev st h (Or.inr (Or.inl hev)) with ⟨e, heq, -⟩
    rw [heq]
    refine ⟨reqMethods ([e] ++ [Ev.printInitFailedExiting]), ?_⟩
    simp [reqMethods]
  | exn =>
    rcases initSession_fail ev st h (Or.inr (Or.inr hev)) with ⟨e, heq, -⟩
    rw [heq]
    refine ⟨reqMethods ([e] ++ [Ev.printInitFailedExiting]), ?_⟩
    simp [reqMethods]

/-! ## The id sequence of a run of calls -/

/-- The ids attached to successive `send_command` calls follow
`idsFrom`: each call carries the current counter, and the counter
advances only on exchanges that decoded a response. -/
theorem runCalls_ids (ev : Nat → LineEvent) (m : String) (p : Json) :
    ∀ (n : Nat) (st : St), st.proc = true →
      reqIds (runCalls ev m p n st).2 =
        idsFrom st.reqId (evSlice ev st.idx n) := by
  intro n
  induction n with
  | zero => intro st _; simp [runCalls, evSlice, idsFrom, reqIds]
  | succ n ih =>
    intro st h
    simp only [runCalls, evSlice]
    cases hev : ev st.idx with
    | line oj =>
      cases oj with
      | some j =>
        rw [send_line_some ev m p st h j hev]
        rcases hrun : runCalls ev m p n ⟨st.reqId + 1, st.idx + 1, st.proc⟩
          with ⟨stF, t2⟩
        have hih := ih ⟨st.reqId + 1, st.idx + 1, st.proc⟩ h
        rw [hrun] at hih
        simp [reqIds] at hih
        simp [reqIds, idsFrom, decodes, hev, hih]
      | none =>
        rw [send_line_none ev m p st h hev]
        rcases hrun : runCalls ev m p n ⟨st.reqId, st.idx + 1, st.proc⟩
          with ⟨stF, t2⟩
        have hih := ih ⟨st.reqId, st.idx + 1, st.proc⟩ h
        rw [hrun] at hih
        simp [reqIds] at hih
        simp [reqIds, idsFrom, decodes, hev, hih]
    | closed =>
      rw [send_closed ev m p st h hev]
      rcases hrun : runCalls ev m p n ⟨st.reqId, st.idx + 1, st.proc⟩
        with ⟨stF, t2⟩
      have hih := ih ⟨st.reqId, st.idx + 1, st.proc⟩ h
      rw [hrun] at hih
      simp [reqIds] at hih
      simp [reqIds, idsFrom, decodes, hev, hih]
    | exn =>
      rw [send_exn ev m p st h hev]
      rcases hrun : runCalls ev m p n ⟨st.reqId, st.idx + 1, st.proc⟩
        with ⟨stF, t2⟩
      have hih := ih ⟨st.reqId, st.idx + 1, st.proc⟩ h
      rw [hrun] at hih
      simp [reqIds] at hih
      simp [reqIds, idsFrom, decodes, hev, hih]

/-- Comprehensive mode when the handshake decodes but is falsy: the
script is aborted with the failure print and no tool call goes out. -/
theorem comprehensive_counts_falsy (ev : Nat → LineEvent) (st : St)
    (h : st.proc = true) (j : Json)
    (hev : ev st.idx = LineEvent.line (some j)) (ht : truthy j = false) :
    (run_comprehensive_test ev st).2.countP isToolReq = 0 ∧
    (run_comprehensive_test ev st).2.countP isInitReq = 1 ∧
    ∃ rest, reqMethods (run_comprehensive_test ev st).2 =
      "initialize" :: rest := by
  unfold run_comprehensive_test
  rw [initSession_some ev st h j hev]
  simp only [ht, Bool.false_eq_true, if_false]
  refine ⟨by simp [isToolReq], by simp [isInitReq], ?_⟩
  refine ⟨reqMethods ([] ++ [Ev.printInitFailedStopping]), ?_⟩
  simp [reqMethods]

/-- A response with a `result` key and no `error` key is reported as a
success by `print_response`. -/
theorem printRespEv_ok (l : List (String × Json))
    (hne : hasKey l "error" = false) (hr : hasKey l "result" = true) :
    printRespEv (Json.obj l) = [Ev.printSuccess] := by
  simp [printRespEv, print_response, hne, hr]

/-- Under an all-success stub server, every statement of the
comprehensive script reports exactly one success. -/
theorem comprehensiveCalls_mem_ok (ev : Nat → LineEvent)
    (hall : ∀ i, ∃ l, ev i = LineEvent.line (some (Json.obj l)) ∧
      hasKey l "error" = false ∧ hasKey l "result" = true)
    (f : St → St × List Ev) (hf : f ∈ comprehensiveCalls ev) (s : St)
    (hs : s.proc = true) :
    (f s).2.countP isPrintSuccess = 1 ∧ (f s).1.proc = true := by
  rcases hall s.idx with ⟨l, hev, hne, hr⟩
  simp only [comprehensiveCalls, List.mem_cons, List.not_mem_nil,
    or_false] at hf
  rcases hf with rfl | rfl | rfl | rfl | rfl | rfl | rfl | rfl | rfl | rfl | rfl <;>
  · simp only [test_list_schemas, test_list_tables, test_describe_table,
      test_run_sql, test_explain_sql]
    rw [toolCallStep_ok_report ev _ _ s l hs hev hne hr]
    simp [isPrintSuccess, hs]

/-- Comprehensive mode against an all-success stub server: eleven
`tools/call` requests, eleven scripted-call headers, and twelve success
reports (one per scripted call plus the handshake's). -/
theorem comprehensive_all_ok (ev : Nat → LineEvent)
    (hall : ∀ i, ∃ l, ev i = LineEvent.line (some (Json.obj l)) ∧
      hasKey l "error" = false ∧ hasKey l "result" = true)
    (st : St) (h : st.proc = true) :
    (run_comprehensive_test ev st).2.countP isToolReq = 11 ∧
    (run_comprehensive_test ev st).2.countP isToolHeader = 11 ∧
    (run_comprehensive_test ev st).2.countP isPrintSuccess = 12 := by
  rcases hall st.idx with ⟨l, hev, hne, hr⟩
  have ht : truthy (Json.obj l) = true := truthy_of_hasKey l "result" hr
  have htool := (comprehensive_counts_ok ev st h (Json.obj l) hev ht).1
  refine ⟨htool, ?_, ?_⟩ <;>
  · unfold run_comprehensive_test
    rw [initSession_some ev st h (Json.obj l) hev]
    simp only [ht, if_true]
    have hproc1 : (⟨st.reqId + 1, st.idx + 1, st.proc⟩ : St).proc = true := h
    have hhead := runSeq_countP isToolHeader 1 (comprehensiveCalls ev)
      ⟨st.reqId + 1, st.idx + 1, st.proc⟩
      (fun f hf s hs => ⟨(comprehensiveCalls_mem ev f hf s hs).2.2.2,
        (comprehensiveCalls_mem ev f hf s hs).1⟩) hproc1
    have hsucc := runSeq_countP isPrintSuccess 1 (comprehensiveCalls ev)
      ⟨st.reqId + 1, st.idx + 1, st.proc⟩
      (comprehensiveCalls_mem_ok ev hall) hproc1
    rcases hrun : runSeq (comprehensiveCalls ev)
        ⟨st.reqId + 1, st.idx + 1, st.proc⟩ with ⟨stF, t2⟩
    rw [hrun] at hhead hsucc
    rw [comprehensiveCalls_length] at hhead hsucc
    rw [printRespEv_ok l hne hr]
    simp [List.countP_cons, List.countP_append, isToolHeader, isPrintSuccess,
      hhead.1, hsucc.1]

/-! ## Lemmas about `main` and shutdown -/

/-- Once the child process is spawned, every exit path of `main` —
normal completion, interrupt, body exception, or failed startup check —
passes through `cleanup`, which begins with `terminate`. -/
theorem main_reaches_terminate (w : World) (mode : Mode)
    (ev : Nat → LineEvent) (choices : List Choice)
    (hb : w.binaryExists = true) (hd : w.dockerOk = true)
    (hp : w.popenOk = true) :
    (main_run w mode ev choices).1.any isTerminate = true := by
  have hclean : ∀ hangs : Bool, (cleanup true hangs).any isTerminate = true := by
    intro hangs; simp [cleanup, isTerminate]
  unfold main_run
  cases hpa : w.pollAlive with
  | false => simp [hb, hd, hp, hpa, List.any_append, hclean]
  | true =>
    cases hint : w.interrupted with
    | true => simp [hb, hd, hp, hpa, hint, List.any_append, hclean]
    | false =>
      rcases hbody : bodyRun mode ev choices with ⟨t, raised⟩
      simp [hb, hd, hp, hpa, hint, hbody, List.any_append, hclean]

/-- When an exception escapes the body, `main` re-raises it after the
`finally` cleanup: the program ends abnormally. -/
theorem main_body_raised (w : World) (mode : Mode) (ev : Nat → LineEvent)
    (choices : List Choice) (hb : w.binaryExists = true)
    (hd : w.dockerOk = true) (hp : w.popenOk = true)
    (hpa : w.pollAlive = true) (hint : w.interrupted = false)
    (hr : (bodyRun mode ev choices).2 = true) :
    (main_run w mode ev choices).2 = ProgEnd.exn := by
  unfold main_run
  rcases hbody : bodyRun mode ev choices with ⟨t, raised⟩
  rw [hbody] at hr
  simp only at hr
  simp [hb, hd, hp, hpa, hint, hbody, hr]

/-! ## Lemmas about the interactive menu and choice 5 -/

/-- A menu-choice-5 iteration whose limit string is nonempty and not a
valid integer literal raises at once: no fallback to the default limit,
no tool call, and the rest of the operator input is never processed. -/
theorem loop_c5_raises (ev : Nat → LineEvent) (conn q s : String)
    (rest : List Choice) (st : St) (hs : s ≠ "")
    (hp : pyInt s = none) :
    interactive_loop ev (Choice.c5 conn q s :: rest) st =
      (st, [], Outcome.raised) := by
  simp only [interactive_loop]
  rw [if_neg hs, hp]

/-- With a successful handshake, a bad limit string on the first menu
choice makes the interactive body end with an escaped exception. -/
theorem bodyRun_c5_raised (ev : Nat → LineEvent) (conn q s : String)
    (rest : List Choice) (j : Json)
    (hj : ev 0 = LineEvent.line (some j)) (ht : truthy j = true)
    (hs : s ≠ "") (hp : pyInt s = none) :
    (bodyRun Mode.interactive ev (Choice.c5 conn q s :: rest)).2 = true := by
  unfold bodyRun interactive_mode
  rw [initSession_some ev ⟨1, 0, true⟩ rfl j hj]
  simp only [ht, if_true]
  rw [loop_c5_raises ev conn q s rest ⟨1 + 1, 0 + 1, true⟩ hs hp]
  simp

/-! ## Claims -/

/-- C1 (counterexample): the claim says outgoing ids strictly increase
by 1 and are never reused even when a call fails.  Against a server
whose stream is closed, two consecutive calls both go out with id 1:
the failed call's id is reused, the sequence neither strictly increases
nor is duplicate-free. -/
theorem spec_c1_counterexample :
    reqIds (runCalls (fun _ => LineEvent.closed) "tools/call" Json.null
      2 st0).2 = [1, 1] ∧
    ¬ List.Pairwise (fun a b => a < b)
      (reqIds (runCalls (fun _ => LineEvent.closed) "tools/call" Json.null
        2 st0).2) ∧
    ¬ List.Nodup (reqIds (runCalls (fun _ => LineEvent.closed) "tools/call"
      Json.null 2 st0).2) := by
  refine ⟨rfl, ?_, ?_⟩ <;> decide

/-- C1 (amended): the ids attached to outgoing requests start at the
counter's initial value (1 for a fresh session) and advance by exactly 1
on each call whose exchange decoded a response; a call that fails (empty
line, undecodable line, or exception) leaves the counter unchanged, so
its id is reused by the next call. -/
theorem spec_c1_amended (ev : Nat → LineEvent) (m : String) (p : Json)
    (n : Nat) (st : St) (h : st.proc = true) :
    reqIds (runCalls ev m p n st).2 =
      idsFrom st.reqId (evSlice ev st.idx n) :=
  runCalls_ids ev m p n st h

/-- Witness for C1's amended theorem at a concrete run of three calls. -/
theorem spec_c1_witness :
    reqIds (runCalls allOkOracle "tools/call" Json.null 3 st0).2 =
      idsFrom st0.reqId (evSlice allOkOracle st0.idx 3) :=
  spec_c1_amended allOkOracle "tools/call" Json.null 3 st0 rfl

/-- C2 (counterexample): a handshake response that carries a JSON-RPC
`error` object (and no `result`) still makes `initialize` report
success, because only truthiness of the decoded dict is tested. -/
theorem spec_c2_counterexample :
    (initSession (fun _ => LineEvent.line (some errResp)) st0).1 = true ∧
    hasKey errFields "error" = true ∧
    hasKey errFields "result" = false := ⟨rfl, rfl, rfl⟩

/-- C2 (amended): `initialize` reports success exactly when the
handshake exchange decoded to a truthy value — whether the response
carries `result` or `error` is never examined. -/
theorem spec_c2_amended (ev : Nat → LineEvent) (st : St)
    (h : st.proc = true) :
    (initSession ev st).1 = true ↔
      ∃ j, ev st.idx = LineEvent.line (some j) ∧ truthy j = true :=
  initSession_ok_iff ev st h

/-- Witness for C2's amended theorem at the all-success stub server. -/
theorem spec_c2_witness :
    (initSession allOkOracle st0).1 = true ↔
      ∃ j, allOkOracle st0.idx = LineEvent.line (some j) ∧
        truthy j = true :=
  spec_c2_amended allOkOracle st0 rfl

/-- C3 (counterexample): a decoded response whose id (99) matches no
outgoing request (id 1) and which carries neither `result` nor `error`
is returned as a successful call outcome — and later printed raw — with
no ProtocolError-like failure signalled. -/
theorem spec_c3_counterexample :
    (send_command (fun _ => LineEvent.line (some mismatchResp))
      "tools/call" Json.null st0).1 = some mismatchResp ∧
    hasKey mismatchFields "result" = false ∧
    hasKey mismatchFields "error" = false ∧
    print_response mismatchFields = RespClass.raw := ⟨rfl, rfl, rfl, rfl⟩

/-- C3 (amended): a call fails (returns None after printing an error)
exactly when the line is undecodable, the stream closed, or an exception
occurred while sending; every decoded message — including one missing
both `result` and `error`, or with a mismatched id, which is never
compared — is returned to the caller as a success. -/
theorem spec_c3_amended (ev : Nat → LineEvent) (m : String) (p : Json)
    (st : St) (h : st.proc = true) :
    ((send_command ev m p st).1 = none ↔
      (ev st.idx = LineEvent.line none ∨ ev st.idx = LineEvent.closed ∨
        ev st.idx = LineEvent.exn)) ∧
    (∀ j, ev st.idx = LineEvent.line (some j) →
      (send_command ev m p st).1 = some j) := by
  cases hev : ev st.idx with
  | line oj =>
    cases oj with
    | some j =>
      rw [send_line_some ev m p st h j hev]
      simp [hev]
    | none =>
      rw [send_line_none ev m p st h hev]
      simp [hev]
  | closed =>
    rw [send_closed ev m p st h hev]
    simp [hev]
  | exn =>
    rw [send_exn ev m p st h hev]
    simp [hev]

/-- Witness for C3's amended theorem at the exception oracle. -/
theorem spec_c3_witness :
    (((send_command (fun _ => LineEvent.exn) "tools/call" Json.null
        st0).1 = none ↔
      ((fun _ => LineEvent.exn : Nat → LineEvent) st0.idx =
          LineEvent.line none ∨
        (fun _ => LineEvent.exn : Nat → LineEvent) st0.idx =
          LineEvent.closed ∨
        (fun _ => LineEvent.exn : Nat → LineEvent) st0.idx =
          LineEvent.exn)) ∧
    (∀ j, (fun _ => LineEvent.exn : Nat → LineEvent) st0.idx =
        LineEvent.line (some j) →
      (send_command (fun _ => LineEvent.exn) "tools/call" Json.null
        st0).1 = some j)) :=
  spec_c3_amended (fun _ => LineEvent.exn) "tools/call" Json.null st0 rfl

/-- C4 (counterexample): an empty line makes the call return None — the
very same caller-visible outcome as the exception (ProtocolError-like)
path, not a distinct error type — and it is not fatal: running the
comprehensive script against a server whose stream closes for the first
tool call still issues all eleven scripted calls, prints the distinct
"No response from server" message exactly once, and never reaches the
terminate path from within the session. -/
theorem spec_c4_counterexample :
    (send_command closedAt1 "tools/call" Json.null ⟨2, 1, true⟩).1 =
      none ∧
    (send_command (fun _ => LineEvent.exn) "tools/call" Json.null
      ⟨2, 1, true⟩).1 = none ∧
    (run_comprehensive_test closedAt1 st0).2.countP isToolReq = 11 ∧
    (run_comprehensive_test closedAt1 st0).2.countP
      (fun e => match e with
        | Ev.printNoResponse => true
        | _ => false) = 1 ∧
    (run_comprehensive_test closedAt1 st0).2.any isTerminate = false := by
  refine ⟨rfl, rfl, ?_, ?_, ?_⟩ <;> decide

/-- C4 (amended): an empty line from the child's output makes the
pending call print the dedicated "No response from server" message and
return None — the same value the exception path returns, with the id
counter unchanged — and the session simply continues; shutdown is only
reached through the normal cleanup path. -/
theorem spec_c4_amended (ev : Nat → LineEvent) (m : String) (p : Json)
    (st : St) (h : st.proc = true)
    (hev : ev st.idx = LineEvent.closed) :
    send_command ev m p st =
      (none, ⟨st.reqId, st.idx + 1, st.proc⟩,
        [Ev.request st.reqId m p, Ev.printNoResponse]) ∧
    (send_command ev m p st).1 =
      (send_command (fun _ => LineEvent.exn) m p st).1 := by
  constructor
  · exact send_closed ev m p st h hev
  · rw [send_closed ev m p st h hev,
      send_exn (fun _ => LineEvent.exn) m p st h rfl]

/-- Witness for C4's amended theorem at the closing stub server. -/
theorem spec_c4_witness :
    (send_command (fun _ => LineEvent.closed) "tools/call" Json.null
        st0 =
      (none, ⟨st0.reqId, st0.idx + 1, st0.proc⟩,
        [Ev.request st0.reqId "tools/call" Json.null,
          Ev.printNoResponse])) ∧
    (send_command (fun _ => LineEvent.closed) "tools/call" Json.null
        st0).1 =
      (send_command (fun _ => LineEvent.exn) "tools/call" Json.null
        st0).1 :=
  spec_c4_amended (fun _ => LineEvent.closed) "tools/call" Json.null
    st0 rfl rfl

/-- C5 (counterexample): in an interactive session the operator can pick
menu choice 7, which runs the comprehensive test and issues a second
`initialize` — so `initialize` is not issued exactly once per session. -/
theorem spec_c5_counterexample :
    (interactive_mode allOkOracle [Choice.c7, Choice.c8]
      st0).2.1.countP isInitReq = 2 ∧ (2 : Nat) ≠ 1 := by
  refine ⟨?_, ?_⟩ <;> decide

/-- C5 (amended): in both modes the first request of a session is
`initialize` (so it precedes any `tools/call`), and comprehensive mode
issues it exactly once; but an interactive session issues a further
`initialize` each time the comprehensive-test menu choice is selected,
so "exactly once" holds only for comprehensive mode. -/
theorem spec_c5_amended (ev : Nat → LineEvent) (choices : List Choice)
    (st : St) (h : st.proc = true) :
    (run_comprehensive_test ev st).2.countP isInitReq = 1 ∧
    (∃ rest, reqMethods (run_comprehensive_test ev st).2 =
      "initialize" :: rest) ∧
    (∃ rest, reqMethods (interactive_mode ev choices st).2.1 =
      "initialize" :: rest) := by
  refine ⟨?_, ?_, interactive_head ev choices st h⟩
  · cases hev : ev st.idx with
    | line oj =>
      cases oj with
      | some j =>
        cases ht : truthy j with
        | true => exact (comprehensive_counts_ok ev st h j hev ht).2.1
        | false => exact (comprehensive_counts_falsy ev st h j hev ht).2.1
      | none =>
        exact (comprehensive_counts_fail ev st h (Or.inl hev)).2.1
    | closed =>
      exact (comprehensive_counts_fail ev st h (Or.inr (Or.inl hev))).2.1
    | exn =>
      exact (comprehensive_counts_fail ev st h (Or.inr (Or.inr hev))).2.1
  · cases hev : ev st.idx with
    | line oj =>
      cases oj with
      | some j =>
        cases ht : truthy j with
        | true => exact (comprehensive_counts_ok ev st h j hev ht).2.2
        | false => exact (comprehensive_counts_falsy ev st h j hev ht).2.2
      | none =>
        exact (comprehensive_counts_fail ev st h (Or.inl hev)).2.2
    | closed =>
      exact (comprehensive_counts_fail ev st h (Or.inr (Or.inl hev))).2.2
    | exn =>
      exact (comprehensive_counts_fail ev st h (Or.inr (Or.inr hev))).2.2

/-- Witness for C5's amended theorem at the all-success stub server. -/
theorem spec_c5_witness :
    (run_comprehensive_test allOkOracle st0).2.countP isInitReq = 1 ∧
    (∃ rest, reqMethods (run_comprehensive_test allOkOracle st0).2 =
      "initialize" :: rest) ∧
    (∃ rest, reqMethods (interactive_mode allOkOracle [Choice.c8]
      st0).2.1 = "initialize" :: rest) :=
  spec_c5_amended allOkOracle [Choice.c8] st0 rfl

/-- C6 (confirmed): in comprehensive mode, once `initialize` succeeded
every one of the eleven scripted calls is issued no matter what each
exchange yields, so an error response never aborts the script; a call
whose exchange decodes to a well-formed JSON-RPC error response reports
that error and returns normally; and when `initialize` fails the whole
script is aborted before any tool call. -/
theorem spec_c6_confirmed (ev : Nat → LineEvent) (st : St)
    (h : st.proc = true) :
    ((∃ j, ev st.idx = LineEvent.line (some j) ∧ truthy j = true) →
      (run_comprehensive_test ev st).2.countP isToolReq = 11) ∧
    ((¬ ∃ j, ev st.idx = LineEvent.line (some j) ∧ truthy j = true) →
      (run_comprehensive_test ev st).2.countP isToolReq = 0) ∧
    (∀ (hd : Ev) (p : Json) (l : List (String × Json)) (st2 : St),
      st2.proc = true →
      ev st2.idx = LineEvent.line (some (Json.obj l)) →
      hasKey l "error" = true →
      toolCallStep ev hd p st2 =
        (⟨st2.reqId + 1, st2.idx + 1, st2.proc⟩,
          [hd, Ev.request st2.reqId "tools/call" p, Ev.printError])) := by
  refine ⟨?_, ?_, ?_⟩
  · rintro ⟨j, hev, ht⟩
    exact (comprehensive_counts_ok ev st h j hev ht).1
  · intro hno
    cases hev : ev st.idx with
    | line oj =>
      cases oj with
      | some j =>
        cases ht : truthy j with
        | true => exact absurd ⟨j, hev, ht⟩ hno
        | false => exact (comprehensive_counts_falsy ev st h j hev ht).1
      | none => exact (comprehensive_counts_fail ev st h (Or.inl hev)).1
    | closed =>
      exact (comprehensive_counts_fail ev st h (Or.inr (Or.inl hev))).1
    | exn =>
      exact (comprehensive_counts_fail ev st h (Or.inr (Or.inr hev))).1
  · intro hd p l st2 h2 hev he
    exact toolCallStep_error_report ev hd p st2 l h2 hev he

/-- Witness for C6's theorem: a server answering the fourth exchange
(the third scripted call) with a JSON-RPC error still sees all eleven
scripted calls issued, and the erroring call itself reports the error. -/
theorem spec_c6_witness :
    (run_comprehensive_test
      (fun i => if i == 3 then LineEvent.line (some errResp)
        else LineEvent.line (some okResp)) st0).2.countP isToolReq = 11 ∧
    toolCallStep
      (fun i => if i == 3 then LineEvent.line (some errResp)
        else LineEvent.line (some okResp))
      (Ev.printHeader "run_sql") Json.null ⟨4, 3, true⟩ =
      (⟨5, 4, true⟩,
        [Ev.printHeader "run_sql", Ev.request 4 "tools/call" Json.null,
          Ev.printError]) :=
  ⟨(spec_c6_confirmed
      (fun i => if i == 3 then LineEvent.line (some errResp)
        else LineEvent.line (some okResp)) st0 rfl).1 ⟨okResp, rfl, rfl⟩,
   (spec_c6_confirmed
      (fun i => if i == 3 then LineEvent.line (some errResp)
        else LineEvent.line (some okResp)) st0 rfl).2.2
     (Ev.printHeader "run_sql") Json.null errFields ⟨4, 3, true⟩ rfl rfl
     rfl⟩

/-- C7 (counterexample): the comprehensive script issues eleven tool
calls (five against `primary`, six against `analytics` — only
`analytics` gets `describe_table`, and `run_sql` runs twice per
connection), not the ten the claim states. -/
theorem spec_c7_counterexample :
    (run_comprehensive_test allOkOracle st0).2.countP isToolReq = 11 ∧
    (11 : Nat) ≠ 10 := by
  refine ⟨?_, ?_⟩ <;> decide

/-- C7 (amended): when every exchange yields a successful result,
comprehensive mode issues exactly eleven scripted tool calls, printing
one header per scripted call (eleven) and one success report per call
plus one for the handshake (twelve); nothing raises along the way. -/
theorem spec_c7_amended (ev : Nat → LineEvent)
    (hall : ∀ i, ∃ l, ev i = LineEvent.line (some (Json.obj l)) ∧
      hasKey l "error" = false ∧ hasKey l "result" = true)
    (st : St) (h : st.proc = true) :
    (run_comprehensive_test ev st).2.countP isToolReq = 11 ∧
    (run_comprehensive_test ev st).2.countP isToolHeader = 11 ∧
    (run_comprehensive_test ev st).2.countP isPrintSuccess = 12 :=
  comprehensive_all_ok ev hall st h

/-- Witness for C7's amended theorem at the all-success stub server. -/
theorem spec_c7_witness :
    (run_comprehensive_test allOkOracle st0).2.countP isToolReq = 11 ∧
    (run_comprehensive_test allOkOracle st0).2.countP isToolHeader = 11 ∧
    (run_comprehensive_test allOkOracle st0).2.countP isPrintSuccess =
      12 :=
  spec_c7_amended allOkOracle
    (fun _ => ⟨okFields, rfl, rfl, rfl⟩) st0 rfl

/-- C8 (confirmed): once the startup checks pass and the child process
is spawned, every exit path of `main` — normal completion of either
mode, operator interrupt, body exception, or a failed liveness check —
reaches the cleanup's terminate path, which is graceful terminate, then
a bounded wait, then a forced kill only if the wait timed out; so the
child never outlives the harness. -/
theorem spec_c8_confirmed (w : World) (mode : Mode)
    (ev : Nat → LineEvent) (choices : List Choice)
    (hb : w.binaryExists = true) (hd : w.dockerOk = true)
    (hp : w.popenOk = true) :
    (main_run w mode ev choices).1.any isTerminate = true ∧
    cleanup true true = [Ev.terminate, Ev.waitGrace, Ev.kill,
      Ev.waitFinal] ∧
    cleanup true false = [Ev.terminate, Ev.waitGrace] :=
  ⟨main_reaches_terminate w mode ev choices hb hd hp, rfl, rfl⟩

/-- Witness for C8's theorem: an interrupted interactive session against
a dead-stream server still terminates the child. -/
theorem spec_c8_witness :
    (main_run ⟨true, true, true, true, true, [], false⟩
      Mode.interactive (fun _ => LineEvent.closed) []).1.any
      isTerminate = true ∧
    cleanup true true = [Ev.terminate, Ev.waitGrace, Ev.kill,
      Ev.waitFinal] ∧
    cleanup true false = [Ev.terminate, Ev.waitGrace] :=
  spec_c8_confirmed ⟨true, true, true, true, true, [], false⟩
    Mode.interactive (fun _ => LineEvent.closed) [] rfl rfl rfl

/-- C9 (confirmed): a menu-choice-5 iteration with a nonempty limit
string that is not a valid integer literal raises an uncaught exception
immediately — no re-prompt, no fallback to the default limit of 10, and
the rest of the operator input is never processed — and, end to end,
the program finishes abnormally after the cleanup's terminate ran. -/
theorem spec_c9_confirmed (conn q s : String) (rest : List Choice)
    (ev : Nat → LineEvent) (st : St) (hs : s ≠ "")
    (hp : pyInt s = none) :
    interactive_loop ev (Choice.c5 conn q s :: rest) st =
      (st, [], Outcome.raised) ∧
    (∀ (w : World) (j : Json), w.binaryExists = true →
      w.dockerOk = true → w.popenOk = true → w.pollAlive = true →
      w.interrupted = false → ev 0 = LineEvent.line (some j) →
      truthy j = true →
      (main_run w Mode.interactive ev
        (Choice.c5 conn q s :: rest)).2 = ProgEnd.exn ∧
      (main_run w Mode.interactive ev
        (Choice.c5 conn q s :: rest)).1.any isTerminate = true) := by
  refine ⟨loop_c5_raises ev conn q s rest st hs hp, ?_⟩
  intro w j hb hd hpo hpa hint hj ht
  refine ⟨?_, main_reaches_terminate w Mode.interactive ev _ hb hd hpo⟩
  exact main_body_raised w Mode.interactive ev _ hb hd hpo hpa hint
    (bodyRun_c5_raised ev conn q s rest j hj ht hs hp)

/-- Witness for C9's theorem at the limit string "abc". -/
theorem spec_c9_witness :
    interactive_loop allOkOracle
      (Choice.c5 "primary" "SELECT 1" "abc" :: []) st0 =
      (st0, [], Outcome.raised) ∧
    (main_run ⟨true, true, true, true, false, [], false⟩
      Mode.interactive allOkOracle
      (Choice.c5 "primary" "SELECT 1" "abc" :: [])).2 = ProgEnd.exn ∧
    (main_run ⟨true, true, true, true, false, [], false⟩
      Mode.interactive allOkOracle
      (Choice.c5 "primary" "SELECT 1" "abc" :: [])).1.any
      isTerminate = true := by
  have h := spec_c9_confirmed "primary" "SELECT 1" "abc" [] allOkOracle
    st0 (by decide) (by decide)
  have h2 := h.2 ⟨true, true, true, true, false, [], false⟩ okResp
    rfl rfl rfl rfl rfl rfl rfl
  exact ⟨h.1, h2.1, h2.2⟩

/-- C10 (confirmed): `print_response` classifies a decoded dict as an
error exactly when it contains an `error` key (even if `result` is also
present), as a success exactly when it contains `result` but no
`error`, and prints it raw otherwise; being a total function over
dicts, it never raises. -/
theorem spec_c10_confirmed (response : List (String × Json)) :
    (print_response response = RespClass.error ↔
      hasKey response "error" = true) ∧
    (print_response response = RespClass.success ↔
      (hasKey response "error" = false ∧
        hasKey response "result" = true)) ∧
    (print_response response = RespClass.raw ↔
      (hasKey response "error" = false ∧
        hasKey response "result" = false)) := by
  unfold print_response
  cases he : hasKey response "error" <;>
    cases hr : hasKey response "result" <;> simp
